import Mathlib

/-!
# Verification of the radar_graph aggregation and benchmark-selection core

Shallow embedding of `src/analysis.py` (and the club filter used by
`src/app.py`) over `List`-based tables with exact rational arithmetic in
place of floating point.  Field and function names follow the Python
source.  Pandas data frames become lists of records; a pandas `Series.max()`
over a possibly empty column becomes an `Option ℚ`; raised `ValueError`s
(and the pandas `IndexError` that `.iloc[0]` raises on an empty frame)
become an `Except` error type.
-/

/-- A raw per-match row of the input CSV (the required columns checked by
`build_df_averages`). -/
structure MatchRecord where
  Minutes : ℚ
  player_id : Nat
  player_name : String
  club : String
  position : String
  division : String
  total_distance : ℚ
  high_intensity_distance : ℚ
  sprint_distance : ℚ
  hi_runs : ℚ
  sprint_runs : ℚ
deriving DecidableEq, Repr

/-- One row of the `df_averages` table produced by `build_df_averages`. -/
structure PlayerAverage where
  player_id : Nat
  player_name : String
  club : String
  position : String
  division : String
  avg_total_distance : ℚ
  avg_HI_distance : ℚ
  avg_sprint_distance : ℚ
  avg_HI_runs : ℚ
  avg_sprint_runs : ℚ
  matches_more_than_80 : Nat
deriving DecidableEq, Repr

/-- The grouping key of `df_filtered.groupby(["player_id", "player_name",
"club", "position", "division"])`. -/
abbrev GroupKey := Nat × String × String × String × String

/-- The groupby key of a raw match row. -/
def recKey (r : MatchRecord) : GroupKey :=
  (r.player_id, r.player_name, r.club, r.position, r.division)

/-- The groupby key carried by an aggregated row. -/
def paKey (pa : PlayerAverage) : GroupKey :=
  (pa.player_id, pa.player_name, pa.club, pa.position, pa.division)

/-- Arithmetic mean of a column, as pandas `mean` computes it on a
non-empty group (sum divided by length). -/
def meanQ (l : List ℚ) : ℚ := l.sum / l.length

/-- The output row `agg` produces for group key `k` of the retained rows:
per-metric means over the group and the group size as
`matches_more_than_80`. -/
def aggRow (df_filtered : List MatchRecord) (k : GroupKey) : PlayerAverage :=
  { player_id := k.1, player_name := k.2.1, club := k.2.2.1,
    position := k.2.2.2.1, division := k.2.2.2.2,
    avg_total_distance :=
      meanQ ((df_filtered.filter (fun r => decide (recKey r = k))).map MatchRecord.total_distance),
    avg_HI_distance :=
      meanQ ((df_filtered.filter (fun r => decide (recKey r = k))).map MatchRecord.high_intensity_distance),
    avg_sprint_distance :=
      meanQ ((df_filtered.filter (fun r => decide (recKey r = k))).map MatchRecord.sprint_distance),
    avg_HI_runs :=
      meanQ ((df_filtered.filter (fun r => decide (recKey r = k))).map MatchRecord.hi_runs),
    avg_sprint_runs :=
      meanQ ((df_filtered.filter (fun r => decide (recKey r = k))).map MatchRecord.sprint_runs),
    matches_more_than_80 := (df_filtered.filter (fun r => decide (recKey r = k))).length }

/-- `build_df_averages` from `analysis.py`: keep rows with `Minutes >= 80`,
group by the five-part key, take the mean of each metric and the group size.
Pandas emits one output row per distinct key of the retained rows; the
embedding lists keys in first-occurrence order (pandas sorts them — no
theorem below depends on row order). -/
def build_df_averages (df_all : List MatchRecord) : List PlayerAverage :=
  (((df_all.filter (fun r => decide (80 ≤ r.Minutes))).map recKey).dedup).map
    (aggRow (df_all.filter (fun r => decide (80 ≤ r.Minutes))))

/-- The retained (minutes-qualified) rows of `df_all` that fall in group
`k`: the rows whose metric means and count make up that output group. -/
def groupOf (df_all : List MatchRecord) (k : GroupKey) : List MatchRecord :=
  (df_all.filter (fun r => decide (80 ≤ r.Minutes))).filter
    (fun r => decide (recKey r = k))

/-- `build_league_tables` from `analysis.py`: split by division, then keep
rows with `matches_more_than_80 > 2`. -/
def build_league_tables (df_averages : List PlayerAverage) :
    List PlayerAverage × List PlayerAverage :=
  let eredivisie_averages := df_averages.filter (fun pa => decide (pa.division = "Eredivisie"))
  let kkd_averages := df_averages.filter (fun pa => decide (pa.division = "KKD"))
  (eredivisie_averages.filter (fun pa => decide (2 < pa.matches_more_than_80)),
   kkd_averages.filter (fun pa => decide (2 < pa.matches_more_than_80)))

/-- Modelled from the spec: `build_den_bosch_table` is imported from
`analysis` by `app.py` but its definition is absent from the provided
source of `analysis.py`.  Spec §4.3 (Club Filter): select entries whose
club field equals `club_name` exactly (case-sensitive string match), with
no minimum-match restriction. -/
def build_den_bosch_table (df_averages : List PlayerAverage) (club_name : String) :
    List PlayerAverage :=
  df_averages.filter (fun pa => decide (pa.club = club_name))

/-- `eredivisie_averages_plus3matches[plot_metrics].max()`: the column-wise
maxima used for ranking.  A pandas max over an empty column is `NaN`
(undefined); the embedding returns `none` for an empty column. -/
structure EreMaxes where
  avg_total_distance : Option ℚ
  avg_HI_distance : Option ℚ
  avg_sprint_distance : Option ℚ
  avg_HI_runs : Option ℚ
  avg_sprint_runs : Option ℚ
deriving DecidableEq, Repr

/-- Maximum of a column, `none` when the column is empty. -/
def colMax : List ℚ → Option ℚ
  | [] => none
  | x :: xs =>
    some (match colMax xs with
      | none => x
      | some m => max x m)

/-- `ere_real_maxes` from `analysis.py` line 118: maxima taken over the
whole reference table passed in, before any position filtering. -/
def ere_real_maxes (eredivisie_averages_plus3matches : List PlayerAverage) : EreMaxes :=
  { avg_total_distance := colMax (eredivisie_averages_plus3matches.map PlayerAverage.avg_total_distance),
    avg_HI_distance := colMax (eredivisie_averages_plus3matches.map PlayerAverage.avg_HI_distance),
    avg_sprint_distance := colMax (eredivisie_averages_plus3matches.map PlayerAverage.avg_sprint_distance),
    avg_HI_runs := colMax (eredivisie_averages_plus3matches.map PlayerAverage.avg_HI_runs),
    avg_sprint_runs := colMax (eredivisie_averages_plus3matches.map PlayerAverage.avg_sprint_runs) }

/-- One summand of the focused score, `(row[m] / mx) if mx and mx > 0 else 0.0`
from `analysis.py` line 152.  A `NaN` max (empty column, `none` here) is
truthy in Python but fails `mx > 0`, so it also yields `0.0`. -/
def scoreTerm (v : ℚ) : Option ℚ → ℚ
  | none => 0
  | some mx => if 0 < mx then v / mx else 0

/-- `calculate_focused_score` from `analysis.py` lines 148-153: sum over the
three `scoring_metrics` (`avg_total_distance`, `avg_HI_runs`,
`avg_sprint_runs`) of the guarded normalized value. -/
def calculate_focused_score (mx : EreMaxes) (row : PlayerAverage) : ℚ :=
  scoreTerm row.avg_total_distance mx.avg_total_distance
    + scoreTerm row.avg_HI_runs mx.avg_HI_runs
    + scoreTerm row.avg_sprint_runs mx.avg_sprint_runs

/-- Comparison of rows by focused score, the key of
`sort_values(by="focused_score", ascending=True)`. -/
def scoreLE (mx : EreMaxes) (a b : PlayerAverage) : Prop :=
  calculate_focused_score mx a ≤ calculate_focused_score mx b

instance (mx : EreMaxes) : DecidableRel (scoreLE mx) :=
  fun a b => inferInstanceAs (Decidable (_ ≤ _))

instance (mx : EreMaxes) : IsTotal PlayerAverage (scoreLE mx) :=
  ⟨fun a b => le_total _ _⟩

instance (mx : EreMaxes) : IsTrans PlayerAverage (scoreLE mx) :=
  ⟨fun _ _ _ => le_trans⟩

instance (mx : EreMaxes) : IsRefl PlayerAverage (scoreLE mx) :=
  ⟨fun _ => le_refl _⟩

/-- Row selection `table[table["player_name"] == name]`. -/
def lookupPlayer (cohort : List PlayerAverage) (name : String) : List PlayerAverage :=
  cohort.filter (fun pa => decide (pa.player_name = name))

/-- Row selection `table[table["position"] == pos]` (line 144). -/
def positionTable (cohort : List PlayerAverage) (pos : String) : List PlayerAverage :=
  cohort.filter (fun pa => decide (pa.position = pos))

/-- Lines 158-161: `target_index = int(count * percentile)`, clamped to
`count - 1` when `target_index >= count`.  `int()` on a non-negative float
truncates, i.e. floors. -/
def target_rank (count : Nat) (percentile : ℚ) : Nat :=
  let target_index := (⌊(count : ℚ) * percentile⌋).toNat
  if count ≤ target_index then count - 1 else target_index

/-- The position-restricted reference table sorted ascending by focused
score (lines 155-156).  The embedding uses a stable insertion sort; the
source's `sort_values` default (`kind="quicksort"`) specifies no tie
order, and no theorem below about sorting depends on tie order. -/
def scoreSorted (mx : EreMaxes) (df_ere : List PlayerAverage) : List PlayerAverage :=
  List.insertionSort (scoreLE mx) df_ere

/-- The failure modes of `compare_player_to_eredivisie`.  The `ValueError`s
raised by the source carry structured content here; `indexError` is the
pandas `IndexError` that `.iloc[0]` raises on an empty frame. -/
inductive AnalysisError where
  | invalidPercentile
  | player1NotFound (name : String)
  | player2NotFound (name : String)
  | noPositionData (pos : String)
  | indexError
deriving DecidableEq, Repr

/-- Lines 132-141 of `analysis.py`, the optional second-player step, as a
function of the table and the requested name.  `if second_player_name:` is
falsy for `None` and for `""`.  When the name is looked up and absent,
line 137 (`int(p2_data["matches_more_than_80"].iloc[0])`) runs BEFORE the
emptiness test of line 138 and raises the pandas `IndexError`; the
`ValueError` of line 139 is unreachable.  On success the step yields the
second player's club. -/
def second_player_club (kkd_averages_plus3matches : List PlayerAverage) :
    Option String → Except AnalysisError (Option String)
  | none => .ok none
  | some name2 =>
    if name2 = "" then .ok none
    else
      match lookupPlayer kkd_averages_plus3matches name2 with
      | [] => .error .indexError
      | p2 :: _ => .ok (some p2.club)

/-- The `meta` dictionary returned by `compare_player_to_eredivisie`
(lines 233-239).  It carries exactly these five entries; in the source
`player2_club` is `None` when no second player is given. -/
structure ComparisonMeta where
  benchmark_name : String
  target_position : String
  player1_club : String
  player2_club : Option String
  percentile : ℚ
deriving DecidableEq, Repr

/-- `compare_player_to_eredivisie` from `analysis.py`, control flow in
source order.  The figure built on lines 167-231 is presentation only and
carries no data that is not derived from the values modelled here; the
function result is the `meta` dictionary.  Faithfulness notes:
* line 106: the percentile check comes first;
* lines 121-129: player-1 lookup, emptiness check, then position override;
* line 135: `if second_player_name:` is falsy for both `None` and `""`;
* line 137 reads `p2_data[...].iloc[0]` BEFORE the emptiness check on
  line 138, so an absent second player raises the pandas `IndexError`,
  and the `ValueError` branch of line 139 is unreachable;
* lines 144-146: position filter and emptiness check;
* lines 148-163: scoring, ascending sort, rank index, row selection. -/
def compare_player_to_eredivisie (player_name : String)
    (kkd_averages_plus3matches : List PlayerAverage)
    (eredivisie_averages_plus3matches : List PlayerAverage)
    (percentile : ℚ) (second_player_name : Option String)
    (position_plot : Option String) : Except AnalysisError ComparisonMeta :=
  if ¬(0 < percentile ∧ percentile ≤ 1) then
    .error .invalidPercentile
  else
    match lookupPlayer kkd_averages_plus3matches player_name with
    | [] => .error (.player1NotFound player_name)
    | p1 :: _ =>
      match second_player_club kkd_averages_plus3matches second_player_name with
      | .error e => .error e
      | .ok p2_club =>
        match positionTable eredivisie_averages_plus3matches (position_plot.getD p1.position) with
        | [] => .error (.noPositionData (position_plot.getD p1.position))
        | _ :: _ =>
          match (scoreSorted (ere_real_maxes eredivisie_averages_plus3matches)
              (positionTable eredivisie_averages_plus3matches (position_plot.getD p1.position)))[
            target_rank (scoreSorted (ere_real_maxes eredivisie_averages_plus3matches)
              (positionTable eredivisie_averages_plus3matches (position_plot.getD p1.position))).length
              percentile]? with
          | none => .error .indexError
          | some benchmark_player =>
            .ok { benchmark_name := benchmark_player.player_name,
                  target_position := position_plot.getD p1.position,
                  player1_club := p1.club,
                  player2_club := p2_club,
                  percentile := percentile }

/-! ## Sample rows and auxiliary definitions -/

/-- Sample aggregated rows used to instantiate the partitioner theorem. -/
def leagueSample : List PlayerAverage :=
  [{ player_id := 1, player_name := "A", club := "FC Den Bosch", position := "CB",
     division := "KKD", avg_total_distance := 9000, avg_HI_distance := 900,
     avg_sprint_distance := 250, avg_HI_runs := 30, avg_sprint_runs := 8,
     matches_more_than_80 := 4 },
   { player_id := 2, player_name := "B", club := "Ajax", position := "CB",
     division := "Eredivisie", avg_total_distance := 10000, avg_HI_distance := 1000,
     avg_sprint_distance := 300, avg_HI_runs := 40, avg_sprint_runs := 10,
     matches_more_than_80 := 2 }]

/-- A club row with exactly one qualifying match. -/
def oneMatchRow : PlayerAverage :=
  { player_id := 7, player_name := "Solo", club := "FC Den Bosch", position := "CF",
    division := "KKD", avg_total_distance := 8000, avg_HI_distance := 800,
    avg_sprint_distance := 200, avg_HI_runs := 25, avg_sprint_runs := 6,
    matches_more_than_80 := 1 }

/-! ## Sample tables for the comparator -/

/-- Row constructor used by the concrete samples below. -/
def mkRow (pid : Nat) (name club pos div : String) (td hid sd hr sr : ℚ)
    (n : Nat) : PlayerAverage :=
  { player_id := pid, player_name := name, club := club, position := pos,
    division := div, avg_total_distance := td, avg_HI_distance := hid,
    avg_sprint_distance := sd, avg_HI_runs := hr, avg_sprint_runs := sr,
    matches_more_than_80 := n }

/-- A one-row KKD subject table containing player `"A"`. -/
def kkdSample : List PlayerAverage :=
  [mkRow 1 "A" "FC Den Bosch" "CB" "KKD" 9000 900 250 30 8 4]

/-- A three-row Eredivisie reference table (two `"CB"` rows, one `"CF"`). -/
def ereSample : List PlayerAverage :=
  [mkRow 11 "E1" "Ajax" "CB" "Eredivisie" 10000 1000 300 40 10 5,
   mkRow 12 "E2" "PSV" "CB" "Eredivisie" 12000 1200 350 50 12 6,
   mkRow 13 "E3" "AZ" "CF" "Eredivisie" 11000 1100 320 45 11 7]

/-- Zero out the five per-match metric averages of a row, leaving key
fields and the match count untouched. -/
def eraseMetrics (pa : PlayerAverage) : PlayerAverage :=
  { pa with
    avg_total_distance := 0
    avg_HI_distance := 0
    avg_sprint_distance := 0
    avg_HI_runs := 0
    avg_sprint_runs := 0 }

/-- The `kkdSample` subject row with all five metric values altered. -/
def kkdSampleAlt : List PlayerAverage :=
  [mkRow 1 "A" "FC Den Bosch" "CB" "KKD" 7777 700 200 20 5 4]

/-- Decidable equality of comparator results, used by the concrete
witnesses below. -/
instance : DecidableEq (Except AnalysisError ComparisonMeta) :=
  fun a b =>
    match a, b with
    | .error e₁, .error e₂ => decidable_of_iff (e₁ = e₂) (by simp)
    | .ok m₁, .ok m₂ => decidable_of_iff (m₁ = m₂) (by simp)
    | .error _, .ok _ => isFalse (by simp)
    | .ok _, .error _ => isFalse (by simp)

/-- Three raw sample rows: two minutes-qualified rows of one player and
one below the threshold. -/
def aggSample : List MatchRecord :=
  [{ Minutes := 90, player_id := 1, player_name := "A", club := "C", position := "CB",
     division := "KKD", total_distance := 10000, high_intensity_distance := 1000,
     sprint_distance := 300, hi_runs := 40, sprint_runs := 10 },
   { Minutes := 60, player_id := 1, player_name := "A", club := "C", position := "CB",
     division := "KKD", total_distance := 8000, high_intensity_distance := 900,
     sprint_distance := 200, hi_runs := 30, sprint_runs := 8 },
   { Minutes := 85, player_id := 1, player_name := "A", club := "C", position := "CB",
     division := "KKD", total_distance := 12000, high_intensity_distance := 1100,
     sprint_distance := 400, hi_runs := 50, sprint_runs := 12 }]

/-- The single aggregated row `build_df_averages` produces for `aggSample`:
means over the two qualifying rows, count 2. -/
def aggSampleRow : PlayerAverage :=
  { player_id := 1, player_name := "A", club := "C", position := "CB",
    division := "KKD", avg_total_distance := 11000, avg_HI_distance := 1050,
    avg_sprint_distance := 350, avg_HI_runs := 45, avg_sprint_runs := 11,
    matches_more_than_80 := 2 }

/-! ## Shared lemmas -/

/-- `colMax` returns the greatest element of a non-empty column. -/
theorem colMax_spec (l : List ℚ) (m : ℚ) (h : colMax l = some m) :
    m ∈ l ∧ ∀ x ∈ l, x ≤ m := by
  induction l generalizing m with
  | nil => simp [colMax] at h
  | cons x xs ih =>
    rw [colMax] at h
    cases hxs : colMax xs with
    | none =>
      rw [hxs] at h
      cases xs with
      | nil =>
        simp at h
        subst h
        simp
      | cons y ys => simp [colMax] at hxs
    | some mx =>
      rw [hxs] at h
      simp only [Option.some.injEq] at h
      obtain ⟨hmem, hub⟩ := ih mx hxs
      subst h
      constructor
      · rcases le_total x mx with hle | hle
        · rw [max_eq_right hle]
          exact List.mem_cons_of_mem _ hmem
        · rw [max_eq_left hle]
          exact List.mem_cons_self _ _
      · intro z hz
        rcases List.mem_cons.mp hz with rfl | hz
        · exact le_max_left _ _
        · exact le_trans (hub z hz) (le_max_right _ _)

/-- `colMax` is `none` exactly on the empty column. -/
theorem colMax_eq_none (l : List ℚ) : colMax l = none ↔ l = [] := by
  cases l with
  | nil => simp [colMax]
  | cons x xs => simp [colMax]

/-! ## C9 — League Partitioner -/

/-- C9: every cohort `build_league_tables` returns is a subset of its
input, each returned entry matches the division and has
`matches_more_than_80 > 2`, and when nothing matches the cohort is empty
(a value, not an error). -/
theorem league_partitioner_spec (df : List PlayerAverage) :
    ((build_league_tables df).1 ⊆ df ∧ (build_league_tables df).2 ⊆ df)
    ∧ (∀ pa ∈ (build_league_tables df).1,
        pa.division = "Eredivisie" ∧ 2 < pa.matches_more_than_80)
    ∧ (∀ pa ∈ (build_league_tables df).2,
        pa.division = "KKD" ∧ 2 < pa.matches_more_than_80)
    ∧ ((∀ pa ∈ df, ¬(pa.division = "Eredivisie" ∧ 2 < pa.matches_more_than_80)) →
        (build_league_tables df).1 = [])
    ∧ ((∀ pa ∈ df, ¬(pa.division = "KKD" ∧ 2 < pa.matches_more_than_80)) →
        (build_league_tables df).2 = []) := by
  refine ⟨⟨?_, ?_⟩, ?_, ?_, ?_, ?_⟩
  · exact ((List.filter_sublist _).trans (List.filter_sublist _)).subset
  · exact ((List.filter_sublist _).trans (List.filter_sublist _)).subset
  · intro pa hpa
    simp only [build_league_tables, List.mem_filter, decide_eq_true_eq] at hpa
    exact ⟨hpa.1.2, hpa.2⟩
  · intro pa hpa
    simp only [build_league_tables, List.mem_filter, decide_eq_true_eq] at hpa
    exact ⟨hpa.1.2, hpa.2⟩
  · intro hnone
    simp only [build_league_tables, List.filter_filter, List.filter_eq_nil_iff,
      Bool.and_eq_true, decide_eq_true_eq, not_and]
    intro pa hpa hcnt hdiv
    exact hnone pa hpa ⟨hdiv, hcnt⟩
  · intro hnone
    simp only [build_league_tables, List.filter_filter, List.filter_eq_nil_iff,
      Bool.and_eq_true, decide_eq_true_eq, not_and]
    intro pa hpa hcnt hdiv
    exact hnone pa hpa ⟨hdiv, hcnt⟩

/-- Witness for C9 at a concrete input: the sample has no Eredivisie entry
with more than 2 qualifying matches, so the Eredivisie cohort is empty, and
its sole KKD row satisfies the membership contract. -/
theorem league_partitioner_spec_witness :
    (build_league_tables leagueSample).1 = []
      ∧ ((leagueSample.get ⟨0, by decide⟩).division = "KKD"
          ∧ 2 < (leagueSample.get ⟨0, by decide⟩).matches_more_than_80) := by
  refine ⟨(league_partitioner_spec leagueSample).2.2.2.1 (by decide), ?_⟩
  exact (league_partitioner_spec leagueSample).2.2.1 (leagueSample.get ⟨0, by decide⟩) (by decide)

/-! ## C7 — Club Filter -/

/-- C7: `build_den_bosch_table` keeps exactly the entries whose club equals
`club_name` (case-sensitive), with no minimum-match restriction, so an
entry with a single qualifying match is kept whenever its club matches. -/
theorem club_filter_spec (df : List PlayerAverage) (club_name : String) :
    (∀ pa, pa ∈ build_den_bosch_table df club_name ↔ pa ∈ df ∧ pa.club = club_name)
    ∧ (∀ pa ∈ df, pa.club = club_name → pa.matches_more_than_80 = 1 →
        pa ∈ build_den_bosch_table df club_name) := by
  constructor
  · intro pa
    simp [build_den_bosch_table, List.mem_filter]
  · intro pa hpa hclub _
    simp only [build_den_bosch_table, List.mem_filter, decide_eq_true_eq]
    exact ⟨hpa, hclub⟩

/-- Witness for C7 at a concrete input: a one-match player of the club is
kept by the club filter. -/
theorem club_filter_spec_witness :
    oneMatchRow ∈ build_den_bosch_table [oneMatchRow] "FC Den Bosch" :=
  (club_filter_spec [oneMatchRow] "FC Den Bosch").2 oneMatchRow (by decide)
    (by decide) (by decide)

/-! ## Lemmas about the comparator's second-player step -/

/-- The only error the second-player step can produce is the pandas
`IndexError` raised by `.iloc[0]` on an empty selection. -/
theorem second_player_club_error (kkd : List PlayerAverage) (s : Option String)
    (e : AnalysisError) (h : second_player_club kkd s = .error e) :
    e = .indexError := by
  cases s with
  | none => simp [second_player_club] at h
  | some n =>
    by_cases hn : n = ""
    · simp [second_player_club, hn] at h
    · rw [second_player_club, if_neg hn] at h
      cases hkl : lookupPlayer kkd n with
      | nil =>
        rw [hkl] at h
        exact (Except.error.injEq _ _).mp h.symm
      | cons p2 r =>
        rw [hkl] at h
        simp at h

/-- When the second player is requested by a non-empty name that is absent
from the table, the step fails with the `IndexError`, not with the
`ValueError` of line 139 naming the player. -/
theorem second_player_club_missing (kkd : List PlayerAverage) (name2 : String)
    (hne : name2 ≠ "") (habs : lookupPlayer kkd name2 = []) :
    second_player_club kkd (some name2) = .error .indexError := by
  rw [second_player_club, if_neg hne, habs]

/-! ## C8 — percentile validation -/

/-- C8: `compare_player_to_eredivisie` fails with the invalid-parameter
error exactly when the percentile is outside `(0, 1]`; inside the interval
that error is never produced (the call may still fail differently). -/
theorem percentile_validation_iff (player_name : String)
    (kkd ere : List PlayerAverage) (percentile : ℚ) (second pos : Option String) :
    compare_player_to_eredivisie player_name kkd ere percentile second pos
        = .error .invalidPercentile
      ↔ ¬(0 < percentile ∧ percentile ≤ 1) := by
  constructor
  · intro h
    by_contra hp
    rw [compare_player_to_eredivisie, if_neg (not_not_intro hp)] at h
    split at h
    · simp at h
    · split at h
      · rename_i e heq
        rw [show e = AnalysisError.indexError from
          second_player_club_error _ _ _ heq] at h
        simp at h
      · split at h
        · simp at h
        · split at h
          · simp at h
          · simp at h
  · intro h
    rw [compare_player_to_eredivisie, if_pos h]

/-! ## C10 — percentile validation precedence -/

/-- C10: with a percentile outside `(0, 1]` the call fails with the
invalid-parameter error whatever the cohorts contain — the check on line
106 runs before the player lookup of line 121 and the position filter of
line 144, so it takes precedence over the lookup-failure and no-data
errors even when those conditions also hold. -/
theorem invalid_percentile_precedence (player_name : String)
    (kkd ere : List PlayerAverage) (percentile : ℚ) (second pos : Option String)
    (h : ¬(0 < percentile ∧ percentile ≤ 1)) :
    compare_player_to_eredivisie player_name kkd ere percentile second pos
      = .error .invalidPercentile := by
  rw [compare_player_to_eredivisie, if_pos h]

/-- Witness for C10 at a concrete input: percentile `0` on empty cohorts,
where the subject player is also absent and the position-restricted set is
also empty, still yields the invalid-percentile error. -/
theorem invalid_percentile_precedence_witness :
    compare_player_to_eredivisie "Ghost" [] [] 0 (some "Ghost2") none
      = .error .invalidPercentile :=
  invalid_percentile_precedence "Ghost" [] [] 0 (some "Ghost2") none (by norm_num)

/-! ## C4 — second-player lookup failure -/

/-- C4 (code bug): player `"A"` is present, the percentile is valid, yet a
request for the absent second player `"Ghost"` fails with the pandas
`IndexError` from `p2_data["matches_more_than_80"].iloc[0]` (line 137),
because that access precedes the emptiness check of line 138; the
`ValueError` of line 139 that would name the missing player is
unreachable, so the failure is not the player-not-found error the claim
describes. -/
theorem second_player_missing_index_error :
    compare_player_to_eredivisie "A" kkdSample ereSample 1 (some "Ghost") none
        = .error .indexError
      ∧ (Except.error AnalysisError.indexError :
          Except AnalysisError ComparisonMeta)
        ≠ .error (.player2NotFound "Ghost") := by
  refine ⟨?_, by simp⟩
  rw [compare_player_to_eredivisie, if_neg (by norm_num)]
  rw [show lookupPlayer kkdSample "A"
      = [mkRow 1 "A" "FC Den Bosch" "CB" "KKD" 9000 900 250 30 8 4] from rfl]
  rw [second_player_club_missing kkdSample "Ghost" (by decide) (by decide)]

/-! ## C6 — content of the returned outcome -/

/-- Name lookup ignores the metric fields. -/
theorem lookupPlayer_map_erase (kkd : List PlayerAverage) (name : String) :
    lookupPlayer (kkd.map eraseMetrics) name
      = (lookupPlayer kkd name).map eraseMetrics := by
  simp only [lookupPlayer, List.filter_map]
  rfl

/-- The second-player step ignores the metric fields of the table. -/
theorem second_player_club_map_erase (kkd : List PlayerAverage) (s : Option String) :
    second_player_club (kkd.map eraseMetrics) s = second_player_club kkd s := by
  cases s with
  | none => rfl
  | some n =>
    by_cases hn : n = ""
    · simp [second_player_club, hn]
    · rw [second_player_club, second_player_club, if_neg hn, if_neg hn,
        lookupPlayer_map_erase]
      cases lookupPlayer kkd n with
      | nil => rfl
      | cons p2 r => rfl

/-- C6 (amended): the meta dictionary returned by
`compare_player_to_eredivisie` carries only metadata.  Replacing every
metric value of the subject table by zero leaves the returned outcome
unchanged, so the outcome does not expose the subject metric values; and a
successful outcome records the percentile that was used. -/
theorem comparison_outcome_metadata_only (player_name : String)
    (kkd ere : List PlayerAverage) (percentile : ℚ) (second pos : Option String) :
    compare_player_to_eredivisie player_name (kkd.map eraseMetrics) ere
        percentile second pos
      = compare_player_to_eredivisie player_name kkd ere percentile second pos
    ∧ (∀ m, compare_player_to_eredivisie player_name kkd ere percentile second pos
        = .ok m → m.percentile = percentile) := by
  constructor
  · by_cases hp : 0 < percentile ∧ percentile ≤ 1
    · rw [compare_player_to_eredivisie, compare_player_to_eredivisie,
        if_neg (not_not_intro hp), if_neg (not_not_intro hp),
        lookupPlayer_map_erase, second_player_club_map_erase]
      cases lookupPlayer kkd player_name with
      | nil => rfl
      | cons p1 rest => rfl
    · rw [compare_player_to_eredivisie, compare_player_to_eredivisie,
        if_pos hp, if_pos hp]
  · intro m hm
    by_cases hp : 0 < percentile ∧ percentile ≤ 1
    · rw [compare_player_to_eredivisie, if_neg (not_not_intro hp)] at hm
      split at hm
      · simp at hm
      · split at hm
        · simp at hm
        · split at hm
          · simp at hm
          · split at hm
            · simp at hm
            · injection hm with hm
              rw [← hm]
    · rw [compare_player_to_eredivisie, if_pos hp] at hm
      simp at hm

/-- Counterexample for C6 as claimed: the subject metric values differ
between the two tables, yet the returned outcome is the same record either
way, and that record holds only the benchmark name, position, club,
absent second club, and percentile — no metric values.  The outcome
therefore does not expose the five raw metric values. -/
theorem comparison_outcome_no_metrics_counterexample :
    compare_player_to_eredivisie "A" kkdSample ereSample 1 none none
        = compare_player_to_eredivisie "A" kkdSampleAlt ereSample 1 none none
      ∧ compare_player_to_eredivisie "A" kkdSample ereSample 1 none none
        = .ok { benchmark_name := "E2", target_position := "CB",
                player1_club := "FC Den Bosch", player2_club := none,
                percentile := 1 }
      ∧ (kkdSample.get ⟨0, by decide⟩).avg_total_distance
        ≠ (kkdSampleAlt.get ⟨0, by decide⟩).avg_total_distance := by
  refine ⟨?_, ?_, by decide⟩
  · norm_num [compare_player_to_eredivisie, lookupPlayer, positionTable, scoreSorted,
      scoreLE, calculate_focused_score, scoreTerm, ere_real_maxes, colMax, target_rank,
      second_player_club, kkdSample, kkdSampleAlt, ereSample, mkRow, List.filter]
  · norm_num [compare_player_to_eredivisie, lookupPlayer, positionTable, scoreSorted,
      scoreLE, calculate_focused_score, scoreTerm, ere_real_maxes, colMax, target_rank,
      second_player_club, kkdSample, ereSample, mkRow, List.filter]

/-- Witness for C6 (amended) at a concrete input: erasing the subject
metrics leaves the concrete outcome unchanged, and the successful call
records percentile `1`. -/
theorem comparison_outcome_metadata_only_witness :
    compare_player_to_eredivisie "A" (kkdSample.map eraseMetrics) ereSample 1 none none
        = compare_player_to_eredivisie "A" kkdSample ereSample 1 none none
      ∧ ({ benchmark_name := "E2", target_position := "CB",
           player1_club := "FC Den Bosch", player2_club := none,
           percentile := 1 } : ComparisonMeta).percentile = 1 := by
  refine ⟨(comparison_outcome_metadata_only "A" kkdSample ereSample 1 none none).1, ?_⟩
  exact (comparison_outcome_metadata_only "A" kkdSample ereSample 1 none none).2
    { benchmark_name := "E2", target_position := "CB",
      player1_club := "FC Den Bosch", player2_club := none, percentile := 1 }
    (by norm_num [compare_player_to_eredivisie, lookupPlayer, positionTable, scoreSorted,
      scoreLE, calculate_focused_score, scoreTerm, ere_real_maxes, colMax, target_rank,
      second_player_club, kkdSample, ereSample, mkRow, List.filter])

/-! ## C3 — Aggregator -/

/-- C3: every output row of `build_df_averages` carries, for its own key,
the per-metric arithmetic means and the record count of exactly the
minutes-qualified rows in that group; no output row has a zero count; the
output keys are exactly the keys of the qualifying input rows; and no key
appears twice. -/
theorem aggregator_spec (df_all : List MatchRecord) :
    (∀ pa ∈ build_df_averages df_all,
      pa.matches_more_than_80 = (groupOf df_all (paKey pa)).length
      ∧ 1 ≤ pa.matches_more_than_80
      ∧ pa.avg_total_distance
        = meanQ ((groupOf df_all (paKey pa)).map MatchRecord.total_distance)
      ∧ pa.avg_HI_distance
        = meanQ ((groupOf df_all (paKey pa)).map MatchRecord.high_intensity_distance)
      ∧ pa.avg_sprint_distance
        = meanQ ((groupOf df_all (paKey pa)).map MatchRecord.sprint_distance)
      ∧ pa.avg_HI_runs
        = meanQ ((groupOf df_all (paKey pa)).map MatchRecord.hi_runs)
      ∧ pa.avg_sprint_runs
        = meanQ ((groupOf df_all (paKey pa)).map MatchRecord.sprint_runs))
    ∧ (∀ k : GroupKey, (∃ pa ∈ build_df_averages df_all, paKey pa = k)
        ↔ ∃ r ∈ df_all, 80 ≤ r.Minutes ∧ recKey r = k)
    ∧ ((build_df_averages df_all).map paKey).Nodup := by
  refine ⟨?_, ?_, ?_⟩
  · intro pa hpa
    simp only [build_df_averages, List.mem_map] at hpa
    obtain ⟨k, hk, rfl⟩ := hpa
    have hk' := List.mem_dedup.mp hk
    obtain ⟨r, hr, hrk⟩ := List.mem_map.mp hk'
    have hrg : r ∈ groupOf df_all k := by
      simp only [groupOf, List.mem_filter]
      refine ⟨List.mem_filter.mp hr, ?_⟩
      simpa using hrk
    have hlen : 1 ≤ (groupOf df_all k).length :=
      List.length_pos.mpr (List.ne_nil_of_mem hrg)
    exact ⟨rfl, hlen, rfl, rfl, rfl, rfl, rfl⟩
  · intro k
    constructor
    · rintro ⟨pa, hpa, rfl⟩
      simp only [build_df_averages, List.mem_map] at hpa
      obtain ⟨k', hk', rfl⟩ := hpa
      have hk'' := List.mem_dedup.mp hk'
      obtain ⟨r, hr, hrk⟩ := List.mem_map.mp hk''
      rw [List.mem_filter] at hr
      exact ⟨r, hr.1, by simpa using hr.2, hrk⟩
    · rintro ⟨r, hr, hmin, hrk⟩
      refine ⟨aggRow (df_all.filter (fun r => decide (80 ≤ r.Minutes))) k, ?_, rfl⟩
      simp only [build_df_averages, List.mem_map]
      refine ⟨k, ?_, rfl⟩
      rw [List.mem_dedup]
      refine List.mem_map.mpr ⟨r, ?_, hrk⟩
      rw [List.mem_filter]
      exact ⟨hr, by simpa using hmin⟩
  · simp only [build_df_averages, List.map_map]
    have hcomp : paKey ∘ aggRow (df_all.filter (fun r => decide (80 ≤ r.Minutes))) = id :=
      funext fun k => rfl
    rw [hcomp, List.map_id]
    exact List.nodup_dedup _

/-- Witness for C3 at a concrete input: `aggSample` aggregates to the
single row `aggSampleRow`, whose count equals its group size and is at
least 1. -/
theorem aggregator_spec_witness :
    aggSampleRow ∈ build_df_averages aggSample
    ∧ aggSampleRow.matches_more_than_80 = (groupOf aggSample (paKey aggSampleRow)).length
    ∧ 1 ≤ aggSampleRow.matches_more_than_80 := by
  have hmem : aggSampleRow ∈ build_df_averages aggSample := by
    have : build_df_averages aggSample = [aggSampleRow] := by
      norm_num [build_df_averages, aggSample, aggSampleRow, aggRow, meanQ, recKey,
        List.dedup, List.filter]
    rw [this]
    exact List.mem_singleton.mpr rfl
  have h := (aggregator_spec aggSample).1 aggSampleRow hmem
  exact ⟨hmem, h.1, h.2.1⟩

/-! ## C2 — the focused (composite) score -/

/-- C2: the focused score of any row against a reference cohort is the sum
over the three scoring metrics of the row value divided by that metric's
maximum over the full, unfiltered reference cohort (when those maxima are
positive); each such maximum is attained by and bounds the whole cohort,
not a position subset; an empty cohort (undefined maxima) gives score 0;
and a zero maximum makes its term contribute exactly 0. -/
theorem focused_score_spec (ere : List PlayerAverage) (pa : PlayerAverage) :
    (∀ m₁ m₂ m₃ : ℚ,
      colMax (ere.map PlayerAverage.avg_total_distance) = some m₁ →
      colMax (ere.map PlayerAverage.avg_HI_runs) = some m₂ →
      colMax (ere.map PlayerAverage.avg_sprint_runs) = some m₃ →
      0 < m₁ → 0 < m₂ → 0 < m₃ →
      calculate_focused_score (ere_real_maxes ere) pa
        = pa.avg_total_distance / m₁ + pa.avg_HI_runs / m₂ + pa.avg_sprint_runs / m₃)
    ∧ (∀ m, colMax (ere.map PlayerAverage.avg_total_distance) = some m →
        (∃ q ∈ ere, q.avg_total_distance = m) ∧ ∀ q ∈ ere, q.avg_total_distance ≤ m)
    ∧ (∀ m, colMax (ere.map PlayerAverage.avg_HI_runs) = some m →
        (∃ q ∈ ere, q.avg_HI_runs = m) ∧ ∀ q ∈ ere, q.avg_HI_runs ≤ m)
    ∧ (∀ m, colMax (ere.map PlayerAverage.avg_sprint_runs) = some m →
        (∃ q ∈ ere, q.avg_sprint_runs = m) ∧ ∀ q ∈ ere, q.avg_sprint_runs ≤ m)
    ∧ (ere = [] → calculate_focused_score (ere_real_maxes ere) pa = 0)
    ∧ (colMax (ere.map PlayerAverage.avg_total_distance) = some 0 →
        calculate_focused_score (ere_real_maxes ere) pa
          = scoreTerm pa.avg_HI_runs (ere_real_maxes ere).avg_HI_runs
            + scoreTerm pa.avg_sprint_runs (ere_real_maxes ere).avg_sprint_runs)
    ∧ (colMax (ere.map PlayerAverage.avg_HI_runs) = some 0 →
        calculate_focused_score (ere_real_maxes ere) pa
          = scoreTerm pa.avg_total_distance (ere_real_maxes ere).avg_total_distance
            + scoreTerm pa.avg_sprint_runs (ere_real_maxes ere).avg_sprint_runs)
    ∧ (colMax (ere.map PlayerAverage.avg_sprint_runs) = some 0 →
        calculate_focused_score (ere_real_maxes ere) pa
          = scoreTerm pa.avg_total_distance (ere_real_maxes ere).avg_total_distance
            + scoreTerm pa.avg_HI_runs (ere_real_maxes ere).avg_HI_runs) := by
  refine ⟨?_, ?_, ?_, ?_, ?_, ?_, ?_, ?_⟩
  · intro m₁ m₂ m₃ h₁ h₂ h₃ hp₁ hp₂ hp₃
    simp only [calculate_focused_score, ere_real_maxes]
    rw [h₁, h₂, h₃]
    simp only [scoreTerm]
    rw [if_pos hp₁, if_pos hp₂, if_pos hp₃]
  · intro m h
    obtain ⟨hmem, hub⟩ := colMax_spec _ m h
    obtain ⟨q, hq, hqm⟩ := List.mem_map.mp hmem
    exact ⟨⟨q, hq, hqm⟩, fun q' hq' => hub _ (List.mem_map_of_mem _ hq')⟩
  · intro m h
    obtain ⟨hmem, hub⟩ := colMax_spec _ m h
    obtain ⟨q, hq, hqm⟩ := List.mem_map.mp hmem
    exact ⟨⟨q, hq, hqm⟩, fun q' hq' => hub _ (List.mem_map_of_mem _ hq')⟩
  · intro m h
    obtain ⟨hmem, hub⟩ := colMax_spec _ m h
    obtain ⟨q, hq, hqm⟩ := List.mem_map.mp hmem
    exact ⟨⟨q, hq, hqm⟩, fun q' hq' => hub _ (List.mem_map_of_mem _ hq')⟩
  · intro h
    subst h
    simp [calculate_focused_score, ere_real_maxes, colMax, scoreTerm]
  · intro h
    simp only [calculate_focused_score, ere_real_maxes]
    rw [h]
    simp [scoreTerm]
  · intro h
    simp only [calculate_focused_score, ere_real_maxes]
    rw [h]
    simp [scoreTerm]
  · intro h
    simp only [calculate_focused_score, ere_real_maxes]
    rw [h]
    simp [scoreTerm]

/-- Witness for C2 at a concrete input: against `ereSample` (maxima 12000,
50, 12 over the full three-row cohort) the sample subject row scores
`9000/12000 + 30/50 + 8/12`. -/
theorem focused_score_spec_witness :
    calculate_focused_score (ere_real_maxes ereSample)
        (mkRow 1 "A" "FC Den Bosch" "CB" "KKD" 9000 900 250 30 8 4)
      = 9000 / 12000 + 30 / 50 + 8 / 12 :=
  (focused_score_spec ereSample
      (mkRow 1 "A" "FC Den Bosch" "CB" "KKD" 9000 900 250 30 8 4)).1
    12000 50 12 (by decide) (by decide) (by decide)
    (by norm_num) (by norm_num) (by norm_num)

/-! ## C1 — percentile rank selection -/

/-- The clamped index of lines 159-161 equals
`min ⌊count * percentile⌋ (count - 1)`. -/
theorem target_rank_eq_min (n : ℕ) (p : ℚ) :
    target_rank n p = min ((⌊(n : ℚ) * p⌋).toNat) (n - 1) := by
  simp only [target_rank]
  by_cases h : n ≤ (⌊(n : ℚ) * p⌋).toNat
  · rw [if_pos h]
    exact (Nat.min_eq_right (le_trans (Nat.sub_le n 1) h)).symm
  · rw [if_neg h]
    push_neg at h
    exact (Nat.min_eq_left (Nat.le_sub_one_of_lt h)).symm

/-- The clamped index stays inside a non-empty cohort. -/
theorem target_rank_lt (n : ℕ) (p : ℚ) (hn : 0 < n) : target_rank n p < n := by
  rw [target_rank_eq_min]
  exact lt_of_le_of_lt (min_le_right _ _) (Nat.sub_lt hn Nat.one_pos)

/-- At percentile 1 the clamp hits the top index. -/
theorem target_rank_one (n : ℕ) : target_rank n 1 = n - 1 := by
  simp only [target_rank]
  rw [mul_one, Int.floor_natCast, Int.toNat_natCast, if_pos (le_refl n)]

/-- At a percentile small enough that `count * percentile < 1`, the index
is rank 0. -/
theorem target_rank_zero (n : ℕ) (p : ℚ) (hn : 0 < n) (hp0 : 0 < p)
    (hsmall : (n : ℚ) * p < 1) : target_rank n p = 0 := by
  simp only [target_rank]
  rw [Int.floor_eq_zero_iff.mpr ⟨mul_nonneg (Nat.cast_nonneg n) hp0.le, hsmall⟩]
  rw [if_neg (by omega)]
  rfl

/-- Evaluation of the comparator on the success path: valid percentile,
subject found, no second player, and a row at the clamped index of the
sorted position table. -/
theorem compare_ok_of (kkd ere : List PlayerAverage) (player_name : String)
    (p : ℚ) (pos : String) (p1 bench : PlayerAverage)
    (rest : List PlayerAverage)
    (hp : 0 < p ∧ p ≤ 1)
    (hkl : lookupPlayer kkd player_name = p1 :: rest)
    (hbench : (scoreSorted (ere_real_maxes ere) (positionTable ere pos))[
        target_rank (scoreSorted (ere_real_maxes ere)
          (positionTable ere pos)).length p]? = some bench) :
    compare_player_to_eredivisie player_name kkd ere p none (some pos)
      = .ok { benchmark_name := bench.player_name, target_position := pos,
              player1_club := p1.club, player2_club := none, percentile := p } := by
  rw [compare_player_to_eredivisie, if_neg (not_not_intro hp), hkl]
  cases hc : positionTable ere pos with
  | nil =>
    rw [hc] at hbench
    simp [scoreSorted] at hbench
  | cons q qs =>
    rw [hc] at hbench
    have : positionTable ere ((some pos).getD p1.position) = q :: qs := hc
    dsimp only
    rw [this, hbench]
    rfl

/-- C1: for a valid percentile, a resolvable subject and a non-empty
position subset of the reference table, the call succeeds with the
benchmark taken at index `min ⌊percentile * n⌋ (n - 1)` of the ascending
score-sorted position subset (`n` its size, the clamp applying exactly
when `⌊percentile * n⌋ ≥ n`); percentile 1 selects a maximum-scoring
entry, a percentile with `percentile * n < 1` selects a minimum-scoring
entry (rank 0), and a 10-row subset at percentile `1/2` selects sorted
index 5. -/
theorem benchmark_selection_spec (kkd ere : List PlayerAverage)
    (player_name : String) (p : ℚ) (pos : String)
    (hp0 : 0 < p) (hp1 : p ≤ 1)
    (hk : lookupPlayer kkd player_name ≠ [])
    (hpos : positionTable ere pos ≠ []) :
    ∃ bench p1,
      (scoreSorted (ere_real_maxes ere) (positionTable ere pos))[
          target_rank (positionTable ere pos).length p]? = some bench
      ∧ (lookupPlayer kkd player_name).head? = some p1
      ∧ compare_player_to_eredivisie player_name kkd ere p none (some pos)
          = .ok { benchmark_name := bench.player_name, target_position := pos,
                  player1_club := p1.club, player2_club := none, percentile := p }
      ∧ target_rank (positionTable ere pos).length p
          = min ((⌊p * ((positionTable ere pos).length : ℚ)⌋).toNat)
              ((positionTable ere pos).length - 1)
      ∧ (p = 1 →
          target_rank (positionTable ere pos).length p
            = (positionTable ere pos).length - 1
          ∧ ∀ x ∈ positionTable ere pos,
              calculate_focused_score (ere_real_maxes ere) x
                ≤ calculate_focused_score (ere_real_maxes ere) bench)
      ∧ (p * ((positionTable ere pos).length : ℚ) < 1 →
          target_rank (positionTable ere pos).length p = 0
          ∧ ∀ x ∈ positionTable ere pos,
              calculate_focused_score (ere_real_maxes ere) bench
                ≤ calculate_focused_score (ere_real_maxes ere) x)
      ∧ ((positionTable ere pos).length = 10 → p = 1/2 →
          target_rank (positionTable ere pos).length p = 5) := by
  have hn : 0 < (positionTable ere pos).length := List.length_pos.mpr hpos
  have hlen : (scoreSorted (ere_real_maxes ere) (positionTable ere pos)).length
      = (positionTable ere pos).length :=
    (List.perm_insertionSort _ _).length_eq
  have ht' : target_rank (positionTable ere pos).length p
      < (scoreSorted (ere_real_maxes ere) (positionTable ere pos)).length := by
    rw [hlen]
    exact target_rank_lt _ _ hn
  have hsort : List.Sorted (scoreLE (ere_real_maxes ere))
      (scoreSorted (ere_real_maxes ere) (positionTable ere pos)) :=
    List.sorted_insertionSort _ _
  obtain ⟨p1, rest, hkl⟩ : ∃ p1 rest, lookupPlayer kkd player_name = p1 :: rest := by
    cases hc : lookupPlayer kkd player_name with
    | nil => exact absurd hc hk
    | cons a b => exact ⟨a, b, rfl⟩
  refine ⟨(scoreSorted (ere_real_maxes ere) (positionTable ere pos)).get
      ⟨target_rank (positionTable ere pos).length p, ht'⟩, p1,
    List.getElem?_eq_getElem ht', by rw [hkl]; rfl, ?_, ?_, ?_, ?_, ?_⟩
  · refine compare_ok_of kkd ere player_name p pos p1 _ rest ⟨hp0, hp1⟩ hkl ?_
    have hidx : target_rank (scoreSorted (ere_real_maxes ere)
        (positionTable ere pos)).length p
          = target_rank (positionTable ere pos).length p := by rw [hlen]
    rw [hidx]
    exact List.getElem?_eq_getElem ht'
  · rw [target_rank_eq_min, mul_comm]
  · rintro rfl
    refine ⟨target_rank_one _, ?_⟩
    intro x hx
    have hxs : x ∈ scoreSorted (ere_real_maxes ere) (positionTable ere pos) :=
      (List.mem_insertionSort (scoreLE (ere_real_maxes ere))).mpr hx
    obtain ⟨⟨i, hi⟩, hxe⟩ := List.mem_iff_get.mp hxs
    have hle : (⟨i, hi⟩ : Fin _)
        ≤ ⟨target_rank (positionTable ere pos).length 1, ht'⟩ := by
      refine Fin.mk_le_mk.mpr ?_
      rw [target_rank_one]
      omega
    have hrel := hsort.rel_get_of_le hle
    rw [hxe] at hrel
    exact hrel
  · intro hsmall
    have h0 : target_rank (positionTable ere pos).length p = 0 :=
      target_rank_zero _ _ hn hp0 (by rwa [mul_comm] at hsmall)
    refine ⟨h0, ?_⟩
    intro x hx
    have hxs : x ∈ scoreSorted (ere_real_maxes ere) (positionTable ere pos) :=
      (List.mem_insertionSort (scoreLE (ere_real_maxes ere))).mpr hx
    obtain ⟨⟨i, hi⟩, hxe⟩ := List.mem_iff_get.mp hxs
    have hle : (⟨target_rank (positionTable ere pos).length p, ht'⟩ : Fin _)
        ≤ ⟨i, hi⟩ := by
      refine Fin.mk_le_mk.mpr ?_
      rw [h0]
      exact Nat.zero_le i
    have hrel := hsort.rel_get_of_le hle
    rw [hxe] at hrel
    exact hrel
  · intro h10 hp
    subst hp
    rw [h10]
    simp only [target_rank]
    rw [show ((10 : ℕ) : ℚ) * (1 / 2) = ((5 : ℕ) : ℚ) by norm_num]
    rw [Int.floor_natCast, Int.toNat_natCast]
    rw [if_neg (by omega)]

/-- Witness for C1 at a concrete input: percentile 1 on the two-row `"CB"`
subset of `ereSample` selects the top-scoring row `"E2"`, and the clamped
index formula holds there. -/
theorem benchmark_selection_spec_witness :
    compare_player_to_eredivisie "A" kkdSample ereSample 1 none (some "CB")
      = .ok { benchmark_name := "E2", target_position := "CB",
              player1_club := "FC Den Bosch", player2_club := none, percentile := 1 }
    ∧ target_rank (positionTable ereSample "CB").length 1
        = min ((⌊(1 : ℚ) * ((positionTable ereSample "CB").length : ℚ)⌋).toNat)
            ((positionTable ereSample "CB").length - 1) := by
  obtain ⟨bench, p1, hbench, hp1, hcomp, hmin, -, -, -⟩ :=
    benchmark_selection_spec kkdSample ereSample "A" 1 "CB"
      (by norm_num) (le_refl 1) (by decide) (by decide)
  refine ⟨?_, hmin⟩
  have hb : bench = mkRow 12 "E2" "PSV" "CB" "Eredivisie" 12000 1200 350 50 12 6 := by
    have heval : (scoreSorted (ere_real_maxes ereSample) (positionTable ereSample "CB"))[
        target_rank (positionTable ereSample "CB").length 1]?
          = some (mkRow 12 "E2" "PSV" "CB" "Eredivisie" 12000 1200 350 50 12 6) := by
      rw [target_rank_one]
      norm_num [scoreSorted, positionTable, ere_real_maxes, colMax, scoreLE,
        calculate_focused_score, scoreTerm, ereSample, mkRow, List.filter,
        show decide ("CF" = "CB") = false from rfl,
        show decide ("CB" = "CB") = true from rfl]
    rw [heval] at hbench
    exact ((Option.some.injEq _ _).mp hbench).symm
  have hp1e : p1 = mkRow 1 "A" "FC Den Bosch" "CB" "KKD" 9000 900 250 30 8 4 := by
    have heval2 : (lookupPlayer kkdSample "A").head?
        = some (mkRow 1 "A" "FC Den Bosch" "CB" "KKD" 9000 900 250 30 8 4) := rfl
    rw [heval2] at hp1
    exact ((Option.some.injEq _ _).mp hp1).symm
  rw [hcomp, hb, hp1e]
  rfl
